import Mathlib

/-!
Verification of the pricing & purchase-settlement engine of the
remnawave-bedolaga-telegram-bot repository.

Monetary values are integer kopeks.  All Python `//` divisions in the
pricing code divide non-negative integers, so they are modelled by `Nat`
division; Python `max(0, a - b)` on integers coincides with truncated `Nat`
subtraction.  Where a value can genuinely be negative in the code
(withdrawal ledger intermediates, device-limit arithmetic, risk scores)
the model uses `Int`.
-/

/- ## Source embedding: `app/utils/pricing_calculator.py` -/

/-- Configuration values read by the pricing calculator:
`PERIOD_PRICES.get(period_days, 0)`, `settings.get_traffic_price`,
`settings.DEFAULT_DEVICE_LIMIT` and `settings.PRICE_PER_DEVICE`. -/
structure PricingConfig where
  periodPrices : Nat → Nat
  trafficPrice : Nat → Nat
  defaultDeviceLimit : Nat
  pricePerDevice : Nat

/-- The per-category discount percents returned by `_get_discount_percent`
for the fixed arguments `(user, promo_group, category, period_days)` of one
aggregator call.  The resolver itself lives outside the pricing calculator
(`app/database/crud/promo.py`); the calculator only consumes its four
category values. -/
structure Discounts where
  period : Nat
  traffic : Nat
  servers : Nat
  devices : Nat

/-- Dataclass `PricingDetails` of `app/utils/pricing_calculator.py`. -/
structure PricingDetails where
  base_price_original : Nat
  base_price_discounted : Nat
  base_discount_percent : Nat
  base_discount_total : Nat
  traffic_price_per_month_original : Nat
  traffic_price_per_month_discounted : Nat
  traffic_discount_percent : Nat
  traffic_discount_total : Nat
  total_traffic_price : Nat
  servers_price_per_month_original : Nat
  servers_price_per_month_discounted : Nat
  servers_discount_percent : Nat
  servers_discount_total : Nat
  total_servers_price : Nat
  servers_individual_prices : List Nat
  devices_price_per_month_original : Nat
  devices_price_per_month_discounted : Nat
  devices_discount_percent : Nat
  devices_discount_total : Nat
  total_devices_price : Nat
  months_in_period : Nat
  total_cost : Nat
  total_discount : Nat
  total_original_cost : Nat
deriving Repr, DecidableEq

/-- Dataclass `PricingResult` of `app/utils/pricing_calculator.py`. -/
structure PricingResult where
  total_price : Nat
  details : PricingDetails
deriving Repr, DecidableEq

/-- Python `round(period_days / 30.44)`: on exact rationals this is
`round(period_days * 50 / 1522)`.  The value is never an exact half
(`50 * d ≡ 761 [MOD 1522]` is impossible since the left side is even and
the right side odd), so round-half-to-even coincides with rounding to
nearest, i.e. `(period_days * 50 + 761) / 1522` in integer division. -/
def roundDaysOverAvgMonth (period_days : Nat) : Nat :=
  (period_days * 50 + 761) / 1522

/-- Function `calculate_months_from_days` of `app/utils/pricing_calculator.py`:
`max(1, round(period_days / 30.44))`. -/
def calculate_months_from_days (period_days : Nat) : Nat :=
  max 1 (roundDaysOverAvgMonth period_days)

/-- Function `calculate_subscription_total_cost` of `app/utils/pricing_calculator.py`
(lines 70-194).  The awaited collaborator `get_servers_monthly_prices`
is passed in as the resolved list `servers_prices`; the resolved discount
percents are passed as `disc`. -/
def calculate_subscription_total_cost (cfg : PricingConfig) (disc : Discounts)
    (period_days traffic_gb : Nat) (servers_prices : List Nat) (devices : Nat) :
    PricingResult :=
  let months_in_period := calculate_months_from_days period_days
  -- Calculate base period price
  let base_price_original := cfg.periodPrices period_days
  let period_discount_percent := disc.period
  let base_discount_total := base_price_original * period_discount_percent / 100
  let base_price_discounted := base_price_original - base_discount_total
  -- Calculate traffic price
  let traffic_price_per_month_original := cfg.trafficPrice traffic_gb
  let traffic_discount_percent := disc.traffic
  let traffic_discount_per_month :=
    traffic_price_per_month_original * traffic_discount_percent / 100
  let traffic_price_per_month_discounted :=
    traffic_price_per_month_original - traffic_discount_per_month
  let total_traffic_price := traffic_price_per_month_discounted * months_in_period
  let total_traffic_discount := traffic_discount_per_month * months_in_period
  -- Calculate servers price
  let servers_price_per_month_original := servers_prices.sum
  let servers_discount_percent := disc.servers
  let servers_discount_per_month :=
    servers_price_per_month_original * servers_discount_percent / 100
  let servers_price_per_month_discounted :=
    servers_price_per_month_original - servers_discount_per_month
  let total_servers_price := servers_price_per_month_discounted * months_in_period
  let total_servers_discount := servers_discount_per_month * months_in_period
  -- Calculate devices price: `max(0, devices - DEFAULT_DEVICE_LIMIT)` is
  -- truncated subtraction on Nat
  let additional_devices := devices - cfg.defaultDeviceLimit
  let devices_price_per_month_original := additional_devices * cfg.pricePerDevice
  let devices_discount_percent := disc.devices
  let devices_discount_per_month :=
    devices_price_per_month_original * devices_discount_percent / 100
  let devices_price_per_month_discounted :=
    devices_price_per_month_original - devices_discount_per_month
  let total_devices_price := devices_price_per_month_discounted * months_in_period
  let total_devices_discount := devices_discount_per_month * months_in_period
  -- Calculate total cost
  let total_cost :=
    base_price_discounted + total_traffic_price + total_servers_price + total_devices_price
  let total_original_cost :=
    base_price_original + traffic_price_per_month_original * months_in_period +
      servers_price_per_month_original * months_in_period +
      devices_price_per_month_original * months_in_period
  let total_discount := total_original_cost - total_cost
  { total_price := total_cost
    details :=
      { base_price_original := base_price_original
        base_price_discounted := base_price_discounted
        base_discount_percent := period_discount_percent
        base_discount_total := base_discount_total
        traffic_price_per_month_original := traffic_price_per_month_original
        traffic_price_per_month_discounted := traffic_price_per_month_discounted
        traffic_discount_percent := traffic_discount_percent
        traffic_discount_total := total_traffic_discount
        total_traffic_price := total_traffic_price
        servers_price_per_month_original := servers_price_per_month_original
        servers_price_per_month_discounted := servers_price_per_month_discounted
        servers_discount_percent := servers_discount_percent
        servers_discount_total := total_servers_discount
        total_servers_price := total_servers_price
        servers_individual_prices :=
          servers_prices.map (fun price =>
            (price - price * servers_discount_percent / 100) * months_in_period)
        devices_price_per_month_original := devices_price_per_month_original
        devices_price_per_month_discounted := devices_price_per_month_discounted
        devices_discount_percent := devices_discount_percent
        devices_discount_total := total_devices_discount
        total_devices_price := total_devices_price
        months_in_period := months_in_period
        total_cost := total_cost
        total_discount := total_discount
        total_original_cost := total_original_cost } }

/-- Function `calculate_servers_price` of `app/utils/pricing_calculator.py`
(lines 261-302): returns
`(total_servers_price, total_servers_price_original, individual_server_prices)`.
The awaited `get_servers_monthly_prices` result is `servers_prices`; the
resolved `"servers"` discount percent is `servers_discount_percent`. -/
def calculate_servers_price (servers_prices : List Nat) (period_days : Nat)
    (servers_discount_percent : Nat) : Nat × Nat × List Nat :=
  let months_in_period := calculate_months_from_days period_days
  let servers_price_per_month_original := servers_prices.sum
  let servers_discount_per_month :=
    servers_price_per_month_original * servers_discount_percent / 100
  let servers_price_per_month_discounted :=
    servers_price_per_month_original - servers_discount_per_month
  let total_servers_price := servers_price_per_month_discounted * months_in_period
  let total_servers_price_original :=
    servers_price_per_month_original * months_in_period
  let individual_server_prices :=
    servers_prices.map (fun price =>
      (price - price * servers_discount_percent / 100) * months_in_period)
  (total_servers_price, total_servers_price_original, individual_server_prices)

/-- The discount application used throughout
`app/utils/pricing_calculator.py` (e.g. lines 105-106 for the period
component): `discount = amount * percent // 100`,
`discounted = amount - discount`. -/
def apply_discount (amount percent : Nat) : Nat :=
  amount - amount * percent / 100

/- ## Spec model: the structured-service aggregator -/

/-- Named sub-totals exposed by the structured purchase service
(`details['base_price']`, `details['total_traffic_price']`, etc. together
with `final_total`). -/
structure ServicePricing where
  final_total : Nat
  base_price : Nat
  total_traffic_price : Nat
  total_servers_price : Nat
  total_devices_price : Nat
deriving Repr, DecidableEq

/-- Modelled from the spec: the period-price calculator of the structured
service (`MiniAppSubscriptionPurchaseService` in
`app/services/subscription_purchase_service.py` is not among the source
files).  Spec 4.2: `original = table_lookup(period_days)` (0 if unknown);
`discount = original * percent // 100`; `final = original - discount`. -/
def service_period_price (cfg : PricingConfig) (disc : Discounts)
    (period_days : Nat) : Nat :=
  let original := cfg.periodPrices period_days
  original - original * disc.period / 100

/-- Modelled from the spec: the traffic-price calculator of the structured
service.  Spec 4.2: `per_month_final = per_month_original -
per_month_original*percent//100`; `total = per_month_final * months`. -/
def service_traffic_total (cfg : PricingConfig) (disc : Discounts)
    (traffic_gb period_days : Nat) : Nat :=
  let months := calculate_months_from_days period_days
  let per_month_original := cfg.trafficPrice traffic_gb
  (per_month_original - per_month_original * disc.traffic / 100) * months

/-- Modelled from the spec: the servers-price calculator of the structured
service.  Spec 4.2: the monthly total is the sum of each selected server's
listed monthly price; the `"servers"` discount percent is applied to it and
the result is scaled by the months in the period. -/
def service_servers_total (disc : Discounts)
    (servers_prices : List Nat) (period_days : Nat) : Nat :=
  let months := calculate_months_from_days period_days
  let per_month_original := servers_prices.sum
  (per_month_original - per_month_original * disc.servers / 100) * months

/-- Modelled from the spec: the devices-price calculator of the structured
service.  Spec 4.2: `extra = max(0, devices - default_device_limit)`;
`per_month_original = extra * price_per_device`; discounted per-month
amount scaled by months. -/
def service_devices_total (cfg : PricingConfig) (disc : Discounts)
    (devices period_days : Nat) : Nat :=
  let months := calculate_months_from_days period_days
  let extra := devices - cfg.defaultDeviceLimit
  let per_month_original := extra * cfg.pricePerDevice
  (per_month_original - per_month_original * disc.devices / 100) * months

/-- Modelled from the spec: the aggregate entry point of the structured
service (spec 4.3 `calculate_total`): the final total is the sum of the
final period, traffic, servers and devices components. -/
def service_calculate_pricing (cfg : PricingConfig) (disc : Discounts)
    (period_days traffic_gb : Nat) (servers_prices : List Nat) (devices : Nat) :
    ServicePricing :=
  let base := service_period_price cfg disc period_days
  let traffic := service_traffic_total cfg disc traffic_gb period_days
  let servers := service_servers_total disc servers_prices period_days
  let devs := service_devices_total cfg disc devices period_days
  { final_total := base + traffic + servers + devs
    base_price := base
    total_traffic_price := traffic
    total_servers_price := servers
    total_devices_price := devs }

/- ## Theorems: C1, C2 -/

/-- Claim C1: for every input combination, the legacy aggregator
(`calculate_subscription_total_cost`) and the structured-service aggregator
produce the same final total and the same values for every named sub-total
(`base_price`, `total_traffic_price`, `total_servers_price`,
`total_devices_price`). -/
theorem pricing_aggregator_parity (cfg : PricingConfig) (disc : Discounts)
    (period_days traffic_gb : Nat) (servers_prices : List Nat) (devices : Nat) :
    (service_calculate_pricing cfg disc period_days traffic_gb servers_prices devices).final_total =
      (calculate_subscription_total_cost cfg disc period_days traffic_gb servers_prices devices).total_price ∧
    (service_calculate_pricing cfg disc period_days traffic_gb servers_prices devices).base_price =
      (calculate_subscription_total_cost cfg disc period_days traffic_gb servers_prices devices).details.base_price_discounted ∧
    (service_calculate_pricing cfg disc period_days traffic_gb servers_prices devices).total_traffic_price =
      (calculate_subscription_total_cost cfg disc period_days traffic_gb servers_prices devices).details.total_traffic_price ∧
    (service_calculate_pricing cfg disc period_days traffic_gb servers_prices devices).total_servers_price =
      (calculate_subscription_total_cost cfg disc period_days traffic_gb servers_prices devices).details.total_servers_price ∧
    (service_calculate_pricing cfg disc period_days traffic_gb servers_prices devices).total_devices_price =
      (calculate_subscription_total_cost cfg disc period_days traffic_gb servers_prices devices).details.total_devices_price :=
  ⟨rfl, rfl, rfl, rfl, rfl⟩

lemma div_add_div_le_add_div (a b c : Nat) (hc : 0 < c) :
    a / c + b / c ≤ (a + b) / c := by
  rw [Nat.le_div_iff_mul_le hc, Nat.add_mul]
  exact Nat.add_le_add (Nat.div_mul_le_self a c) (Nat.div_mul_le_self b c)

lemma sum_map_discount_le (l : List Nat) (pct : Nat) :
    (l.map (fun p => p * pct / 100)).sum ≤ l.sum * pct / 100 := by
  induction l with
  | nil => simp
  | cons h t ih =>
      simp only [List.map_cons, List.sum_cons, Nat.add_mul]
      calc h * pct / 100 + (t.map (fun p => p * pct / 100)).sum
          ≤ h * pct / 100 + t.sum * pct / 100 := Nat.add_le_add_left ih _
        _ ≤ (h * pct + t.sum * pct) / 100 :=
            div_add_div_le_add_div _ _ 100 (by norm_num)

lemma discount_le_self (p pct : Nat) (hpct : pct ≤ 100) : p * pct / 100 ≤ p := by
  calc p * pct / 100 ≤ p * 100 / 100 :=
        Nat.div_le_div_right (Nat.mul_le_mul_left p hpct)
    _ = p := Nat.mul_div_cancel p (by norm_num)

lemma sum_map_discount_le_sum (l : List Nat) (pct : Nat) (hpct : pct ≤ 100) :
    (l.map (fun p => p * pct / 100)).sum ≤ l.sum := by
  induction l with
  | nil => simp
  | cons h t ih =>
      simp only [List.map_cons, List.sum_cons]
      exact Nat.add_le_add (discount_le_self h pct hpct) ih

lemma sum_map_sub_discount (l : List Nat) (pct : Nat) (hpct : pct ≤ 100) :
    (l.map (fun p => p - p * pct / 100)).sum =
      l.sum - (l.map (fun p => p * pct / 100)).sum := by
  induction l with
  | nil => simp
  | cons h t ih =>
      simp only [List.map_cons, List.sum_cons, ih]
      have h1 : h * pct / 100 ≤ h := discount_le_self h pct hpct
      have h2 : (t.map (fun p => p * pct / 100)).sum ≤ t.sum :=
        sum_map_discount_le_sum t pct hpct
      omega

lemma sum_map_mul_pct (l : List Nat) (pct : Nat) :
    (l.map (· * pct)).sum = l.sum * pct := by
  induction l with
  | nil => simp
  | cons h t ih => simp [List.sum_cons, ih, Nat.add_mul]

lemma sum_div_of_all_dvd (l : List Nat) (hd : ∀ a ∈ l, (100:Nat) ∣ a) :
    l.sum / 100 = (l.map (· / 100)).sum := by
  induction l with
  | nil => simp
  | cons h t ih =>
      simp only [List.map_cons, List.sum_cons]
      rw [Nat.add_div_of_dvd_right (hd h (by simp)),
        ih (fun a ha => hd a (by simp [ha]))]

/-- Claim C2, amended: for every list of non-negative server monthly prices,
discount percent in [0,100] and period, the aggregate discounted servers
total (discount applied to the sum of monthly prices, then scaled by
months) is at most the sum of the individually discounted per-server
amounts, with equality whenever 100 divides `price * percent` for every
listed server (hence in particular for percent 0 or 100, or prices that
are multiples of 100 kopeks). -/
theorem servers_aggregate_vs_individual (servers_prices : List Nat)
    (period_days pct : Nat) (hpct : pct ≤ 100) :
    (calculate_servers_price servers_prices period_days pct).1 ≤
      ((calculate_servers_price servers_prices period_days pct).2.2).sum ∧
    ((∀ p ∈ servers_prices, (100:Nat) ∣ p * pct) →
      (calculate_servers_price servers_prices period_days pct).1 =
        ((calculate_servers_price servers_prices period_days pct).2.2).sum) := by
  simp only [calculate_servers_price]
  set m := calculate_months_from_days period_days with hm
  have hmapmul :
      ((servers_prices.map (fun price => (price - price * pct / 100) * m)).sum) =
        (servers_prices.map (fun price => price - price * pct / 100)).sum * m := by
    induction servers_prices with
    | nil => simp
    | cons h t ih => simp [List.sum_cons, ih, Nat.add_mul]
  constructor
  · rw [hmapmul, sum_map_sub_discount _ _ hpct]
    refine Nat.mul_le_mul_right m (Nat.sub_le_sub_left ?_ _)
    exact sum_map_discount_le servers_prices pct
  · intro hdvd
    rw [hmapmul, sum_map_sub_discount _ _ hpct]
    congr 1
    congr 1
    have := sum_div_of_all_dvd (servers_prices.map (· * pct))
      (by intro a ha; obtain ⟨p, hp, rfl⟩ := List.mem_map.mp ha; exact hdvd p hp)
    calc servers_prices.sum * pct / 100
        = (servers_prices.map (· * pct)).sum / 100 := by
          rw [sum_map_mul_pct]
      _ = ((servers_prices.map (· * pct)).map (· / 100)).sum := this
      _ = (servers_prices.map (fun p => p * pct / 100)).sum := by
          rw [List.map_map]; rfl

/-- Witness for `servers_aggregate_vs_individual` at prices
`[5000, 3000]`, period 30 days, percent 10. -/
theorem servers_aggregate_vs_individual_witness :
    (10 : Nat) ≤ 100 ∧
    ((calculate_servers_price [5000, 3000] 30 10).1 ≤
        ((calculate_servers_price [5000, 3000] 30 10).2.2).sum ∧
      ((∀ p ∈ [5000, 3000], (100:Nat) ∣ p * 10) →
        (calculate_servers_price [5000, 3000] 30 10).1 =
          ((calculate_servers_price [5000, 3000] 30 10).2.2).sum)) :=
  ⟨by decide, servers_aggregate_vs_individual [5000, 3000] 30 10 (by decide)⟩

/-- Counterexample to C2 as stated: with monthly prices `[5, 5]`,
30-day period (one month) and a 10 percent discount, the aggregate
discounted total is `(10 - 10*10//100) * 1 = 9` while the individually
discounted amounts are `(5 - 5*10//100) * 1 = 5` each, summing to 10. -/
theorem servers_aggregate_vs_individual_counterexample :
    (calculate_servers_price [5, 5] 30 10).1 = 9 ∧
    ((calculate_servers_price [5, 5] 30 10).2.2).sum = 10 ∧
    (calculate_servers_price [5, 5] 30 10).1 ≠
      ((calculate_servers_price [5, 5] 30 10).2.2).sum := by
  refine ⟨by decide, by decide, by decide⟩

/- ## Theorem: C10 -/

/-- Claim C10: with discount percents in [0,100] (and all table prices
non-negative, which the `Nat` embedding enforces), every discounted
component of `calculate_subscription_total_cost` is bounded by its
original, the total cost is bounded by the total original cost, and
`total_cost + total_discount = total_original_cost` holds exactly. -/
theorem subscription_cost_decomposition (cfg : PricingConfig) (disc : Discounts)
    (period_days traffic_gb : Nat) (servers_prices : List Nat) (devices : Nat)
    (hper : disc.period ≤ 100) (htra : disc.traffic ≤ 100)
    (hser : disc.servers ≤ 100) (hdev : disc.devices ≤ 100) :
    (calculate_subscription_total_cost cfg disc period_days traffic_gb servers_prices devices).details.base_price_discounted ≤
      (calculate_subscription_total_cost cfg disc period_days traffic_gb servers_prices devices).details.base_price_original ∧
    (calculate_subscription_total_cost cfg disc period_days traffic_gb servers_prices devices).details.traffic_price_per_month_discounted ≤
      (calculate_subscription_total_cost cfg disc period_days traffic_gb servers_prices devices).details.traffic_price_per_month_original ∧
    (calculate_subscription_total_cost cfg disc period_days traffic_gb servers_prices devices).details.servers_price_per_month_discounted ≤
      (calculate_subscription_total_cost cfg disc period_days traffic_gb servers_prices devices).details.servers_price_per_month_original ∧
    (calculate_subscription_total_cost cfg disc period_days traffic_gb servers_prices devices).details.devices_price_per_month_discounted ≤
      (calculate_subscription_total_cost cfg disc period_days traffic_gb servers_prices devices).details.devices_price_per_month_original ∧
    (calculate_subscription_total_cost cfg disc period_days traffic_gb servers_prices devices).details.total_cost ≤
      (calculate_subscription_total_cost cfg disc period_days traffic_gb servers_prices devices).details.total_original_cost ∧
    (calculate_subscription_total_cost cfg disc period_days traffic_gb servers_prices devices).details.total_cost +
        (calculate_subscription_total_cost cfg disc period_days traffic_gb servers_prices devices).details.total_discount =
      (calculate_subscription_total_cost cfg disc period_days traffic_gb servers_prices devices).details.total_original_cost ∧
    (calculate_subscription_total_cost cfg disc period_days traffic_gb servers_prices devices).total_price =
      (calculate_subscription_total_cost cfg disc period_days traffic_gb servers_prices devices).details.total_cost := by
  dsimp only [calculate_subscription_total_cost]
  have htot :
      cfg.periodPrices period_days - cfg.periodPrices period_days * disc.period / 100 +
          (cfg.trafficPrice traffic_gb - cfg.trafficPrice traffic_gb * disc.traffic / 100) *
            calculate_months_from_days period_days +
          (servers_prices.sum - servers_prices.sum * disc.servers / 100) *
            calculate_months_from_days period_days +
          ((devices - cfg.defaultDeviceLimit) * cfg.pricePerDevice -
              (devices - cfg.defaultDeviceLimit) * cfg.pricePerDevice * disc.devices / 100) *
            calculate_months_from_days period_days ≤
        cfg.periodPrices period_days +
          cfg.trafficPrice traffic_gb * calculate_months_from_days period_days +
          servers_prices.sum * calculate_months_from_days period_days +
          (devices - cfg.defaultDeviceLimit) * cfg.pricePerDevice *
            calculate_months_from_days period_days := by
    exact Nat.add_le_add
      (Nat.add_le_add
        (Nat.add_le_add (Nat.sub_le _ _)
          (Nat.mul_le_mul_right _ (Nat.sub_le _ _)))
        (Nat.mul_le_mul_right _ (Nat.sub_le _ _)))
      (Nat.mul_le_mul_right _ (Nat.sub_le _ _))
  exact ⟨Nat.sub_le _ _, Nat.sub_le _ _, Nat.sub_le _ _, Nat.sub_le _ _, htot,
    Nat.add_sub_cancel' htot, rfl⟩

/-- Example pricing configuration (30 days ↦ 30000 kopeks, 90 days ↦
80000 kopeks; 100 GB ↦ 10000 kopeks per month; default device limit 3;
5000 kopeks per extra device), mirroring the fixtures of the repository's
integration tests. -/
def exampleConfig : PricingConfig where
  periodPrices := fun d => if d = 30 then 30000 else if d = 90 then 80000 else 0
  trafficPrice := fun g => if g = 100 then 10000 else 0
  defaultDeviceLimit := 3
  pricePerDevice := 5000

/-- Example resolved discounts (20% period, 15% traffic, 10% servers,
0% devices), mirroring the promo-group fixture of the integration tests. -/
def exampleDiscounts : Discounts where
  period := 20
  traffic := 15
  servers := 10
  devices := 0

/-- Witness for `subscription_cost_decomposition` at the example
configuration, 30 days, 100 GB, one 5000-kopek server, 4 devices. -/
theorem subscription_cost_decomposition_witness :
    (exampleDiscounts.period ≤ 100 ∧ exampleDiscounts.traffic ≤ 100 ∧
      exampleDiscounts.servers ≤ 100 ∧ exampleDiscounts.devices ≤ 100) ∧
    ((calculate_subscription_total_cost exampleConfig exampleDiscounts 30 100 [5000] 4).details.base_price_discounted ≤
        (calculate_subscription_total_cost exampleConfig exampleDiscounts 30 100 [5000] 4).details.base_price_original ∧
      (calculate_subscription_total_cost exampleConfig exampleDiscounts 30 100 [5000] 4).details.traffic_price_per_month_discounted ≤
        (calculate_subscription_total_cost exampleConfig exampleDiscounts 30 100 [5000] 4).details.traffic_price_per_month_original ∧
      (calculate_subscription_total_cost exampleConfig exampleDiscounts 30 100 [5000] 4).details.servers_price_per_month_discounted ≤
        (calculate_subscription_total_cost exampleConfig exampleDiscounts 30 100 [5000] 4).details.servers_price_per_month_original ∧
      (calculate_subscription_total_cost exampleConfig exampleDiscounts 30 100 [5000] 4).details.devices_price_per_month_discounted ≤
        (calculate_subscription_total_cost exampleConfig exampleDiscounts 30 100 [5000] 4).details.devices_price_per_month_original ∧
      (calculate_subscription_total_cost exampleConfig exampleDiscounts 30 100 [5000] 4).details.total_cost ≤
        (calculate_subscription_total_cost exampleConfig exampleDiscounts 30 100 [5000] 4).details.total_original_cost ∧
      (calculate_subscription_total_cost exampleConfig exampleDiscounts 30 100 [5000] 4).details.total_cost +
          (calculate_subscription_total_cost exampleConfig exampleDiscounts 30 100 [5000] 4).details.total_discount =
        (calculate_subscription_total_cost exampleConfig exampleDiscounts 30 100 [5000] 4).details.total_original_cost ∧
      (calculate_subscription_total_cost exampleConfig exampleDiscounts 30 100 [5000] 4).total_price =
        (calculate_subscription_total_cost exampleConfig exampleDiscounts 30 100 [5000] 4).details.total_cost) :=
  ⟨by decide,
    subscription_cost_decomposition exampleConfig exampleDiscounts 30 100 [5000] 4
      (by decide) (by decide) (by decide) (by decide)⟩

/- ## Spec model: purchase settlement (balance gate) -/

/-- Balance-bearing user record of the settlement flow. -/
structure PUser where
  balance_kopeks : Int
  has_had_paid_subscription : Bool
deriving Repr, DecidableEq

/-- Subscription record as seen by the settlement flow. -/
structure PSubscription where
  is_trial : Bool
  end_day : Int
  traffic_limit_gb : Int
  device_limit : Int
  connected_squads : List Nat
deriving Repr, DecidableEq

/-- The state touched by one settlement attempt: the user, their (optional)
subscription and the append-only transaction ledger. -/
structure PurchaseState where
  user : PUser
  subscription : Option PSubscription
  transactions : List Int
deriving Repr, DecidableEq

/-- The payload of a balance error: required amount, current balance and
the missing amount reported to the caller. -/
structure BalanceErrorInfo where
  required_amount : Int
  current_balance : Int
  missing_amount : Int
deriving Repr, DecidableEq

/-- A parsed purchase selection (entitlements derived from it on commit). -/
structure SelectedPlan where
  period_days : Int
  traffic_gb : Int
  device_limit : Int
  servers : List Nat
deriving Repr, DecidableEq

/-- Modelled from the spec: `submit_purchase` of
`MiniAppSubscriptionPurchaseService`
(`app/services/subscription_purchase_service.py` is not among the source
files).  Spec 4.4: the balance check `final_total <= user.balance_kopeks`
runs before any mutation; if insufficient the operation mutates nothing
and reports the exact missing amount (`required − current`); otherwise one
atomic commit debits the balance, creates/extends or trial-converts the
subscription, records the transaction and marks
`has_had_paid_subscription`. -/
def submit_purchase (st : PurchaseState) (now_day : Int) (sel : SelectedPlan)
    (final_total : Int) : PurchaseState × Option BalanceErrorInfo :=
  if st.user.balance_kopeks < final_total then
    (st, some { required_amount := final_total
                current_balance := st.user.balance_kopeks
                missing_amount := final_total - st.user.balance_kopeks })
  else
    let user : PUser :=
      { balance_kopeks := st.user.balance_kopeks - final_total
        has_had_paid_subscription := true }
    let sub : PSubscription :=
      match st.subscription with
      | none =>
          { is_trial := false
            end_day := now_day + sel.period_days
            traffic_limit_gb := sel.traffic_gb
            device_limit := sel.device_limit
            connected_squads := sel.servers }
      | some s =>
          if s.is_trial then
            { is_trial := false
              end_day := now_day + sel.period_days
              traffic_limit_gb := sel.traffic_gb
              device_limit := sel.device_limit
              connected_squads := sel.servers }
          else
            { s with end_day := s.end_day + sel.period_days
                     connected_squads := sel.servers }
    ({ user := user, subscription := some sub
       transactions := final_total :: st.transactions }, none)

/- ## Theorem: C3 -/

/-- Claim C3: when `final_total` exceeds the user's balance, `submit_purchase`
reports a balance error whose missing amount is exactly
`final_total - balance_kopeks`, and the state (balance, subscription,
transactions) is returned unchanged. -/
theorem submit_purchase_insufficient_blocks (st : PurchaseState)
    (now_day : Int) (sel : SelectedPlan) (final_total : Int)
    (h : st.user.balance_kopeks < final_total) :
    submit_purchase st now_day sel final_total =
      (st, some { required_amount := final_total
                  current_balance := st.user.balance_kopeks
                  missing_amount := final_total - st.user.balance_kopeks }) := by
  simp [submit_purchase, h]

/-- Example settlement state: balance 20000 kopeks, no subscription. -/
def examplePurchaseState : PurchaseState where
  user := { balance_kopeks := 20000, has_had_paid_subscription := false }
  subscription := none
  transactions := []

/-- Witness for `submit_purchase_insufficient_blocks`: balance 20000,
final total 45000 — the missing amount is 25000 and nothing mutates. -/
theorem submit_purchase_insufficient_blocks_witness :
    examplePurchaseState.user.balance_kopeks < 45000 ∧
    submit_purchase examplePurchaseState 0 ⟨30, 100, 3, [1]⟩ 45000 =
      (examplePurchaseState,
        some { required_amount := 45000, current_balance := 20000
               missing_amount := 25000 }) :=
  ⟨by decide,
    submit_purchase_insufficient_blocks examplePurchaseState 0 ⟨30, 100, 3, [1]⟩ 45000 (by decide)⟩

/- ## Theorems: C7, C8 -/

/-- Claim C7: `calculate_months_from_days(days)` equals
`max(1, round(days / 30.44))` and is at least 1 for every `days ≥ 0`,
including `days = 0` and `days = 1`; a modem enable with very few remaining
subscription days (e.g. 5) is still charged at least one month. -/
theorem months_from_days_min_one :
    (∀ d : Nat, calculate_months_from_days d = max 1 (roundDaysOverAvgMonth d) ∧
      1 ≤ calculate_months_from_days d) ∧
    calculate_months_from_days 0 = 1 ∧
    calculate_months_from_days 1 = 1 ∧
    calculate_months_from_days 5 = 1 ∧
    calculate_months_from_days 30 = 1 ∧
    calculate_months_from_days 90 = 3 :=
  ⟨fun _ => ⟨rfl, Nat.le_max_left 1 _⟩, by decide, by decide, by decide, by decide, by decide⟩

/-- Claim C8: the discount application is exactly
`amount - amount * percent // 100` with truncating integer division;
0 percent returns the amount unchanged, 100 percent returns 0; and it is
precisely the operation the aggregator applies to the base period price. -/
theorem apply_discount_exact :
    (∀ a : Nat, apply_discount a 0 = a) ∧
    (∀ a : Nat, apply_discount a 100 = 0) ∧
    (∀ a p : Nat, apply_discount a p = a - a * p / 100) ∧
    (∀ cfg disc pd gb prices dev,
      (calculate_subscription_total_cost cfg disc pd gb prices dev).details.base_price_discounted =
        apply_discount
          ((calculate_subscription_total_cost cfg disc pd gb prices dev).details.base_price_original)
          disc.period) := by
  refine ⟨fun a => ?_, fun a => ?_, fun a p => rfl, fun _ _ _ _ _ _ => rfl⟩
  · simp [apply_discount]
  · simp [apply_discount, Nat.mul_div_cancel a (by norm_num : (0:Nat) < 100)]

/- ## Spec model: purchase eligibility gate -/

/-- Typed eligibility result returned by the purchase validation gate. -/
structure PurchaseValidationResult where
  can_purchase : Bool
  error_message : Option String
  error_code : Option String
deriving Repr, DecidableEq

/-- The identity and restriction flags the eligibility gate reads. -/
structure CabinetUser where
  telegram_id : Option Int
  username : Option String
  restriction_subscription : Bool
  restriction_reason : Option String
deriving Repr, DecidableEq

/-- Modelled from the spec: `validate_user_can_purchase` of
`app/services/subscription_purchase_service.py` is not among the source
files.  Spec 4.4: the blacklist (an external collaborator keyed by the
Telegram id/username, passed here as `is_user_blacklisted`) is checked
first and is skipped entirely for a user with no linked Telegram identity;
then `restriction_subscription`; the typed result carries
`error_code ∈ {blacklisted, restricted}` and the stored reason or a
default message. -/
def validate_user_can_purchase
    (is_user_blacklisted : Int → Option String → Bool × Option String)
    (user : CabinetUser) : PurchaseValidationResult :=
  let blacklistHit : Option PurchaseValidationResult :=
    match user.telegram_id with
    | some tid =>
        let r := is_user_blacklisted tid user.username
        if r.1 then
          some { can_purchase := false
                 error_message := some (r.2.getD "user is blacklisted")
                 error_code := some "blacklisted" }
        else none
    | none => none
  match blacklistHit with
  | some result => result
  | none =>
      if user.restriction_subscription then
        { can_purchase := false
          error_message := some (user.restriction_reason.getD "action restricted by administrator")
          error_code := some "restricted" }
      else
        { can_purchase := true, error_message := none, error_code := none }

/- ## Theorem: C4 -/

/-- Claim C4: the blacklist check precedes the restriction check — a blacklisted
user gets `error_code = blacklisted` whatever their restriction flag; a
non-blacklisted user carrying `restriction_subscription` gets
`restricted`; and for a user with no Telegram identity the blacklist
collaborator is never consulted (the result does not depend on it). -/
theorem validate_user_blacklist_priority :
    (∀ (f : Int → Option String → Bool × Option String) (u : CabinetUser) (tid : Int),
      u.telegram_id = some tid → (f tid u.username).1 = true →
      (validate_user_can_purchase f u).can_purchase = false ∧
      (validate_user_can_purchase f u).error_code = some "blacklisted") ∧
    (∀ (f : Int → Option String → Bool × Option String) (u : CabinetUser) (tid : Int),
      u.telegram_id = some tid → (f tid u.username).1 = false →
      u.restriction_subscription = true →
      (validate_user_can_purchase f u).can_purchase = false ∧
      (validate_user_can_purchase f u).error_code = some "restricted") ∧
    (∀ (f : Int → Option String → Bool × Option String) (u : CabinetUser),
      u.telegram_id = none → u.restriction_subscription = true →
      (validate_user_can_purchase f u).error_code = some "restricted") ∧
    (∀ (f g : Int → Option String → Bool × Option String) (u : CabinetUser),
      u.telegram_id = none →
      validate_user_can_purchase f u = validate_user_can_purchase g u) := by
  refine ⟨?_, ?_, ?_, ?_⟩
  · intro f u tid htid hbl
    simp [validate_user_can_purchase, htid, hbl]
  · intro f u tid htid hbl hres
    simp [validate_user_can_purchase, htid, hbl, hres]
  · intro f u htid hres
    simp [validate_user_can_purchase, htid, hres]
  · intro f g u htid
    simp [validate_user_can_purchase, htid]

/-- Blacklist collaborator that flags every identity. -/
def blacklistEvery : Int → Option String → Bool × Option String :=
  fun _ _ => (true, some "fraud pattern")

/-- Blacklist collaborator that flags nobody. -/
def blacklistNobody : Int → Option String → Bool × Option String :=
  fun _ _ => (false, none)

/-- A user flagged both blacklisted (by `blacklistEvery`) and restricted. -/
def exampleUserBoth : CabinetUser where
  telegram_id := some 333444555
  username := some "bothuser"
  restriction_subscription := true
  restriction_reason := some "restriction reason"

/-- A user only carrying `restriction_subscription`. -/
def exampleUserRestricted : CabinetUser where
  telegram_id := some 555666777
  username := some "restricteduser"
  restriction_subscription := true
  restriction_reason := some "temporary block"

/-- A user with no Telegram identity. -/
def exampleUserEmailOnly : CabinetUser where
  telegram_id := none
  username := none
  restriction_subscription := false
  restriction_reason := none

/-- Witness for `validate_user_blacklist_priority`: the doubly-flagged
user gets `blacklisted`, the restricted-only user gets `restricted`, and
the email-only user's result is oblivious to the blacklist collaborator. -/
theorem validate_user_blacklist_priority_witness :
    ((validate_user_can_purchase blacklistEvery exampleUserBoth).can_purchase = false ∧
      (validate_user_can_purchase blacklistEvery exampleUserBoth).error_code = some "blacklisted") ∧
    ((validate_user_can_purchase blacklistNobody exampleUserRestricted).can_purchase = false ∧
      (validate_user_can_purchase blacklistNobody exampleUserRestricted).error_code = some "restricted") ∧
    validate_user_can_purchase blacklistEvery exampleUserEmailOnly =
      validate_user_can_purchase blacklistNobody exampleUserEmailOnly :=
  ⟨validate_user_blacklist_priority.1 blacklistEvery exampleUserBoth 333444555 rfl rfl,
    (validate_user_blacklist_priority.2.1 blacklistNobody exampleUserRestricted
      555666777 rfl rfl rfl),
    validate_user_blacklist_priority.2.2.2 blacklistEvery blacklistNobody
      exampleUserEmailOnly rfl⟩

/- ## Spec model: referral withdrawal ledger -/

/-- Modelled from the spec: the withdrawal ledger of
`app/services/referral_withdrawal_service.py` is not among the source
files.  Spec 4.6: spend is capped by lifetime earnings. -/
def referral_spent_capped (total_earned referral_spent : Int) : Int :=
  min referral_spent total_earned

/-- Modelled from the spec (4.6): the earnings-formula availability. -/
def available_by_formula
    (total_earned referral_spent withdrawn approved pending : Int) : Int :=
  max 0 (total_earned - referral_spent_capped total_earned referral_spent -
    withdrawn - approved - pending)

/-- Modelled from the spec (4.6): the real-balance cap. -/
def max_withdrawable_by_balance (actual_balance approved pending : Int) : Int :=
  max 0 (actual_balance - approved - pending)

/-- Modelled from the spec (4.6): the available-to-withdraw total is the
minimum of the earnings formula and the balance cap. -/
def available_total
    (total_earned referral_spent withdrawn approved pending actual_balance : Int) : Int :=
  min (available_by_formula total_earned referral_spent withdrawn approved pending)
    (max_withdrawable_by_balance actual_balance approved pending)

/- ## Theorem: C5 -/

/-- Claim C5: the withdrawal ledger computes
`available_total = min(max(0, total_earned - min(referral_spent,
total_earned) - withdrawn - approved - pending), max(0, actual_balance -
approved - pending))`; in particular with earnings 70050, no spend,
withdrawn 20000 and actual balance 30050 the result is capped to 30050
instead of the uncapped 50050. -/
theorem withdrawal_available_total_formula :
    (∀ total_earned referral_spent withdrawn approved pending actual_balance : Int,
      available_total total_earned referral_spent withdrawn approved pending actual_balance =
        min (max 0 (total_earned - min referral_spent total_earned -
            withdrawn - approved - pending))
          (max 0 (actual_balance - approved - pending))) ∧
    available_total 70050 0 20000 0 0 30050 = 30050 ∧
    available_by_formula 70050 0 20000 0 0 = 50050 :=
  ⟨fun _ _ _ _ _ _ => rfl, by decide, by decide⟩

/- ## Spec model: modem slot entitlement accounting -/

/-- Modelled from the spec: the renewal-entitlement accounting that
consumes the stored `device_limit` lives in service code not among the
source files.  Spec 4.5: `effective_device_limit = device_limit - (1 if
modem_enabled else 0)` — the stored limit includes the reserved modem slot
when the modem is enabled. -/
def effective_device_limit (device_limit : Int) (modem_enabled : Bool) : Int :=
  device_limit - (if modem_enabled then 1 else 0)

/-- Modelled from the spec (4.5): `extra_devices_over_tariff = max(0,
effective_device_limit - tariff_device_limit)`. -/
def extra_devices_over_tariff (device_limit : Int) (modem_enabled : Bool)
    (tariff_device_limit : Int) : Int :=
  max 0 (effective_device_limit device_limit modem_enabled - tariff_device_limit)

/- ## Theorem: C6 -/

/-- Claim C6: the effective device limit subtracts exactly the modem slot
(`device_limit - 1` when the modem is enabled, unchanged otherwise), the
extra devices over a tariff are `max(0, effective - tariff)`, the spec's
scenario holds (tariff 2, stored limit 3, modem on ⇒ 0 extras; modem off
⇒ 1 extra), and enabling the modem together with its reserved `+1` slot
never changes the number of purchasable extra devices. -/
theorem modem_slot_never_extra_device :
    (∀ dl : Int, effective_device_limit dl true = dl - 1 ∧
      effective_device_limit dl false = dl) ∧
    (∀ (dl t : Int) (me : Bool), extra_devices_over_tariff dl me t =
      max 0 (effective_device_limit dl me - t)) ∧
    extra_devices_over_tariff 3 true 2 = 0 ∧
    extra_devices_over_tariff 3 false 2 = 1 ∧
    (∀ dl t : Int,
      extra_devices_over_tariff (dl + 1) true t = extra_devices_over_tariff dl false t) := by
  refine ⟨fun dl => ⟨rfl, by simp [effective_device_limit]⟩,
    fun dl t me => rfl, by decide, by decide, fun dl t => ?_⟩
  simp only [extra_devices_over_tariff, effective_device_limit]
  norm_num

/- ## Spec model: withdrawal risk bucketing -/

/-- Risk buckets of the withdrawal anti-fraud analysis. -/
inductive RiskLevel where
  | low
  | medium
  | high
  | critical
deriving Repr, DecidableEq

/-- Modelled from the spec: the risk scoring of
`app/services/referral_withdrawal_service.py` is not among the source
files.  Spec 4.6: the score is clamped to [0,100] before bucketing. -/
def clamp_risk_score (score : Int) : Int :=
  min (max score 0) 100

/-- Modelled from the spec (4.6): bucketing of the clamped score —
`<30` low, `30–49` medium, `50–69` high, `≥70` critical. -/
def risk_level (score : Int) : RiskLevel :=
  let s := clamp_risk_score score
  if 70 ≤ s then RiskLevel.critical
  else if 50 ≤ s then RiskLevel.high
  else if 30 ≤ s then RiskLevel.medium
  else RiskLevel.low

/- ## Theorem: C9 -/

/-- Claim C9: bucketing after clamping maps `<30` to low, `30–49` to medium,
`50–69` to high and `≥70` to critical; the boundary scores behave as the
spec's examples state, and 150 clamps to 100 and is critical. -/
theorem risk_level_bucketing :
    (∀ s : Int, s < 30 → risk_level s = RiskLevel.low) ∧
    (∀ s : Int, 30 ≤ s → s ≤ 49 → risk_level s = RiskLevel.medium) ∧
    (∀ s : Int, 50 ≤ s → s ≤ 69 → risk_level s = RiskLevel.high) ∧
    (∀ s : Int, 70 ≤ s → risk_level s = RiskLevel.critical) ∧
    risk_level 29 = RiskLevel.low ∧ risk_level 30 = RiskLevel.medium ∧
    risk_level 49 = RiskLevel.medium ∧ risk_level 50 = RiskLevel.high ∧
    risk_level 69 = RiskLevel.high ∧ risk_level 70 = RiskLevel.critical ∧
    clamp_risk_score 150 = 100 ∧ risk_level 150 = RiskLevel.critical := by
  refine ⟨?_, ?_, ?_, ?_, by decide, by decide, by decide, by decide,
    by decide, by decide, by decide, by decide⟩
  all_goals
    intro s
    simp only [risk_level, clamp_risk_score]
    intros
    split_ifs <;> first | rfl | omega

/-- Witness for `risk_level_bucketing` at the boundary scores 29, 30, 50
and 70. -/
theorem risk_level_bucketing_witness :
    ((29 : Int) < 30 ∧ risk_level 29 = RiskLevel.low) ∧
    ((30 : Int) ≤ 30 ∧ (30 : Int) ≤ 49 ∧ risk_level 30 = RiskLevel.medium) ∧
    ((50 : Int) ≤ 50 ∧ (50 : Int) ≤ 69 ∧ risk_level 50 = RiskLevel.high) ∧
    ((70 : Int) ≤ 70 ∧ risk_level 70 = RiskLevel.critical) :=
  ⟨⟨by decide, risk_level_bucketing.1 29 (by decide)⟩,
    ⟨by decide, by decide, risk_level_bucketing.2.1 30 (by decide) (by decide)⟩,
    ⟨by decide, by decide, risk_level_bucketing.2.2.1 50 (by decide) (by decide)⟩,
    ⟨by decide, risk_level_bucketing.2.2.2.1 70 (by decide)⟩⟩
